import Mathlib

/- Shallow embedding of the chitchats desktop shell core:
   the window-state persistence module (src/frontend/src-tauri/src/window_state.rs),
   the sidecar lifecycle supervisor (src/frontend/src-tauri/src/sidecar.rs),
   and the startup sequencer poll loop (src/frontend/src-tauri/src/lib.rs). -/

namespace WindowStateStore

/-- The persisted geometry record, struct WindowState in window_state.rs:
    x, y are i32, width, height are u32, maximized is bool. -/
structure WindowState where
  x : Int
  y : Int
  width : Nat
  height : Nat
  maximized : Bool
deriving DecidableEq, Repr

/-- State of the on-disk state file as the code distinguishes it:
    missing means fs read_to_string returned Err, malformed means the read
    succeeded but serde_json from_str returned Err, record s means the file
    parsed to the record s. Serializing a record and parsing it back yields
    the same record (serde round trip on this plain struct). -/
inductive FileState where
  | missing : FileState
  | malformed : FileState
  | record : WindowState → FileState
deriving DecidableEq, Repr

/-- Results of the five window queries save_window_state performs; none
    models the query returning Err. -/
structure SaveQueries where
  is_minimized : Option Bool
  is_visible : Option Bool
  outer_position : Option (Int × Int)
  outer_size : Option (Nat × Nat)
  is_maximized : Option Bool
deriving DecidableEq, Repr

/-- save_window_state from window_state.rs, as a function from the window
    query results and the current file state to the new file state.
    Mirrors the source line by line: the minimized-or-hidden guard uses
    unwrap_or(false) and unwrap_or(true); a failed position, size or
    maximized query abandons the save; the maximized branch rewrites the
    existing record with only its maximized flag flipped and writes nothing
    when the file is missing or does not parse; the non-maximized branch
    overwrites the file with the full current geometry. -/
def save_window_state (q : SaveQueries) (fs : FileState) : FileState :=
  if q.is_minimized.getD false || !(q.is_visible.getD true) then fs
  else
    match q.outer_position, q.outer_size, q.is_maximized with
    | some pos, some size, some maximized =>
        let state : WindowState :=
          { x := pos.1, y := pos.2, width := size.1, height := size.2,
            maximized := maximized }
        if state.maximized then
          match fs with
          | FileState.record existing =>
              FileState.record { existing with maximized := true }
          | FileState.missing => fs
          | FileState.malformed => fs
        else
          FileState.record state
    | _, _, _ => fs

/-- A mutation restore_window_state performs on the window, in order. -/
inductive WinOp where
  | set_position : Int → Int → WinOp
  | set_size : Nat → Nat → WinOp
  | maximize : WinOp
deriving DecidableEq, Repr

/-- restore_window_state from window_state.rs, as a function from the file
    state to the ordered list of window mutations performed. A missing or
    malformed file is a no-op; a record with width < 400 or height < 300 is
    discarded; a maximized record maximizes the window; otherwise position
    is set first, then size. -/
def restore_window_state (fs : FileState) : List WinOp :=
  match fs with
  | FileState.missing => []
  | FileState.malformed => []
  | FileState.record state =>
      if state.width < 400 ∨ state.height < 300 then []
      else if state.maximized then [WinOp.maximize]
      else [WinOp.set_position state.x state.y,
            WinOp.set_size state.width state.height]

/-- The concrete query results of claim C4: a visible, non-minimized,
    non-maximized window at (10, 20) with size 800 x 600. -/
def roundTripQueries : SaveQueries :=
  { is_minimized := some false, is_visible := some true,
    outer_position := some (10, 20), outer_size := some (800, 600),
    is_maximized := some false }

end WindowStateStore

namespace Sidecar

/-- Supervisor state: slot is the BACKEND_PROCESS mutex content (the stored
    CommandChild handle, identified by a numeric id), spawnCount counts the
    child processes spawned so far, nextId generates fresh handle ids. -/
structure SupState where
  slot : Option Nat
  spawnCount : Nat
  nextId : Nat
deriving DecidableEq, Repr

/-- start_backend_internal from sidecar.rs as a sequential state function.
    spawnOk models whether sidecar command creation and spawn succeed.
    If a handle is stored, return Ok without touching anything; otherwise
    spawn (on success storing the fresh handle), or return the spawn error
    leaving the state unchanged. -/
def start_backend_internal (spawnOk : Bool) (st : SupState) :
    Except String Unit × SupState :=
  if st.slot.isSome then (Except.ok (), st)
  else if spawnOk then
    (Except.ok (),
      { slot := some st.nextId, spawnCount := st.spawnCount + 1,
        nextId := st.nextId + 1 })
  else (Except.error "Failed to spawn sidecar", st)

/-- stop_backend_internal from sidecar.rs. killOk models whether the kill
    signal succeeds. The source takes the handle out of the mutex before
    attempting the kill, so the slot is cleared in both the Ok and the Err
    outcome; with no handle stored it is an Ok no-op. -/
def stop_backend_internal (killOk : Bool) (st : SupState) :
    Except String Unit × SupState :=
  match st.slot with
  | none => (Except.ok (), st)
  | some _ =>
      if killOk then (Except.ok (), { st with slot := none })
      else (Except.error "Failed to kill sidecar", { st with slot := none })

/-- True iff a handle is currently stored. -/
def is_running (st : SupState) : Bool := st.slot.isSome

/-- check_health from sidecar.rs as a function of the HTTP outcome: none
    models any reqwest Err (network error, refusal, or the 2-second timeout
    expiring), some code models an Ok response with that status code. The
    source returns resp.status().is_success(), which is the 2xx class. -/
def check_health (response : Option Nat) : Bool :=
  match response with
  | some code => decide (200 ≤ code) && decide (code < 300)
  | none => false

end Sidecar

namespace SidecarConc

/-- Program counter of one thread executing start_backend_internal. The
    source holds the BACKEND_PROCESS lock in two separate scoped blocks: one
    for the presence check, one for the handle store, with the unlocked
    spawn in between; each constructor is one such atomic action. -/
inductive Pc where
  | check : Pc
  | doSpawn : Pc
  | store : Pc
  | finished : Pc
deriving DecidableEq, Repr

/-- One thread: its program counter and the child handle it spawned. -/
structure ThreadState where
  pc : Pc
  child : Option Nat
deriving DecidableEq, Repr

/-- Two threads concurrently inside start_backend_internal plus the shared
    state: the mutex-guarded slot, the number of processes spawned so far,
    and a fresh-id counter. -/
structure ConcState where
  slot : Option Nat
  spawnCount : Nat
  nextId : Nat
  t1 : ThreadState
  t2 : ThreadState
deriving DecidableEq, Repr

/-- Advance one thread by one atomic action of start_backend_internal:
    check reads the slot under the lock and either returns early or
    proceeds; doSpawn spawns the child outside the lock; store writes the
    handle to the slot under the lock. -/
def stepThread (g : ConcState) (t : ThreadState) : ConcState × ThreadState :=
  match t.pc with
  | Pc.check =>
      if g.slot.isSome then (g, { t with pc := Pc.finished })
      else (g, { t with pc := Pc.doSpawn })
  | Pc.doSpawn =>
      ({ g with spawnCount := g.spawnCount + 1, nextId := g.nextId + 1 },
       { t with pc := Pc.store, child := some g.nextId })
  | Pc.store =>
      ({ g with slot := some (t.child.getD 0) }, { t with pc := Pc.finished })
  | Pc.finished => (g, t)

/-- Scheduler step: true advances thread 1, false advances thread 2. -/
def step (who : Bool) (g : ConcState) : ConcState :=
  if who then
    let r := stepThread g g.t1
    { r.1 with t1 := r.2 }
  else
    let r := stepThread g g.t2
    { r.1 with t2 := r.2 }

/-- Run a whole schedule. -/
def run (sched : List Bool) (g : ConcState) : ConcState :=
  match sched with
  | [] => g
  | w :: rest => run rest (step w g)

/-- Initial state of claim C1: no handle stored and two threads about to
    enter start_backend_internal. -/
def init : ConcState :=
  { slot := none, spawnCount := 0, nextId := 1,
    t1 := { pc := Pc.check, child := none },
    t2 := { pc := Pc.check, child := none } }

/-- The interleaving that breaks the single critical section claim: both
    threads pass the presence check before either stores a handle. -/
def racySchedule : List Bool := [true, false, true, false, true, false]

end SidecarConc

namespace Startup

/-- Observable outcome of the startup poll loop in lib.rs: how many health
    polls ran, how many 500 ms sleeps ran, whether the window geometry was
    restored, whether show and set_focus were called, and whether the loop
    fell through to the timeout log. -/
structure StartupResult where
  polls : Nat
  sleeps : Nat
  restored : Bool
  shown : Bool
  focused : Bool
  timedOut : Bool
deriving DecidableEq, Repr

/-- The for loop of lib.rs lines 96 to 109: on attempt index i with the
    given remaining budget, poll; on the first true result restore, show
    and focus the main window when it exists and stop; on false sleep
    500 ms and continue; with the budget exhausted log the timeout.
    probe i is the result of the i-th health check; windowExists models
    get_webview_window("main") returning Some. -/
def pollLoop (windowExists : Bool) (probe : Nat → Bool) :
    Nat → Nat → StartupResult
  | _, 0 =>
      { polls := 0, sleeps := 0, restored := false, shown := false,
        focused := false, timedOut := true }
  | i, Nat.succ n =>
      if probe i then
        { polls := 1, sleeps := 0, restored := windowExists,
          shown := windowExists, focused := windowExists, timedOut := false }
      else
        let r := pollLoop windowExists probe (i + 1) n
        { r with polls := r.polls + 1, sleeps := r.sleeps + 1 }

/-- The poll phase of the normal startup path: 30 attempts starting at 0. -/
def startupSequence (windowExists : Bool) (probe : Nat → Bool) :
    StartupResult :=
  pollLoop windowExists probe 0 30

end Startup

/-- Claim C1: the claim states that the presence check and the handle store
    of start_backend_internal happen in one atomic critical section, so that
    no interleaving of two concurrent start calls can both observe the slot
    empty and both spawn. The code refutes it: the lock is released between
    the check and the store, and under the schedule where both threads run
    their presence check before either stores, both spawn. This theorem
    evaluates the embedded code at that interleaving: two processes are
    spawned, both calls finish, and the slot holds the second handle, the
    first child leaking. -/
theorem c1_concurrent_start_double_spawn :
    (SidecarConc.run SidecarConc.racySchedule SidecarConc.init).spawnCount = 2 ∧
    (SidecarConc.run SidecarConc.racySchedule SidecarConc.init).t1.pc =
      SidecarConc.Pc.finished ∧
    (SidecarConc.run SidecarConc.racySchedule SidecarConc.init).t2.pc =
      SidecarConc.Pc.finished ∧
    (SidecarConc.run SidecarConc.racySchedule SidecarConc.init).slot = some 2 := by
  refine ⟨rfl, rfl, rfl, rfl⟩

/-- Claim C4: with the geometry x 10, y 20, width 800, height 600, not
    maximized, on a visible, non-minimized window, save followed by restore
    applies exactly that geometry: position (10, 20) first, then size
    800 x 600, whatever the previous file state was. -/
theorem c4_save_restore_round_trip (fs : WindowStateStore.FileState) :
    WindowStateStore.restore_window_state
        (WindowStateStore.save_window_state WindowStateStore.roundTripQueries fs) =
      [WindowStateStore.WinOp.set_position 10 20,
       WindowStateStore.WinOp.set_size 800 600] := by
  cases fs <;> rfl

/-- Claim C4 witness: the round trip at a concrete prior file state. -/
theorem c4_save_restore_round_trip_witness :
    WindowStateStore.restore_window_state
        (WindowStateStore.save_window_state WindowStateStore.roundTripQueries
          WindowStateStore.FileState.missing) =
      [WindowStateStore.WinOp.set_position 10 20,
       WindowStateStore.WinOp.set_size 800 600] :=
  c4_save_restore_round_trip WindowStateStore.FileState.missing

/-- Claim C5: the health probe returns true exactly when the HTTP request
    completed with a status code in the 2xx class; every error outcome
    (network error, refusal, timeout, modelled as none) and every non-2xx
    status yields false. -/
theorem c5_check_health_success_iff (response : Option Nat) :
    Sidecar.check_health response = true ↔
      ∃ code, response = some code ∧ 200 ≤ code ∧ code < 300 := by
  cases response with
  | none => simp [Sidecar.check_health]
  | some code => simp [Sidecar.check_health]

/-- Claim C5 witness: the probe at status 200 and at a network error. -/
theorem c5_check_health_success_iff_witness :
    Sidecar.check_health (some 200) = true ∧ Sidecar.check_health none ≠ true :=
  ⟨(c5_check_health_success_iff (some 200)).mpr ⟨200, rfl, by decide, by decide⟩,
   fun h => by
    rcases (c5_check_health_success_iff none).mp h with ⟨code, hc, -⟩
    exact Option.noConfusion hc⟩

/-- Claim C7: whenever a handle is already stored, start_backend_internal
    returns Ok immediately, spawns nothing and leaves the whole supervisor
    state unchanged, whether or not a spawn would have succeeded. -/
theorem c7_start_noop_when_running (spawnOk : Bool) (st : Sidecar.SupState)
    (h : Nat) (hs : st.slot = some h) :
    Sidecar.start_backend_internal spawnOk st = (Except.ok (), st) := by
  simp [Sidecar.start_backend_internal, hs]

/-- Claim C7 witness: start on a state with handle 5 stored is a no-op. -/
theorem c7_start_noop_when_running_witness :
    Sidecar.start_backend_internal true
        { slot := some 5, spawnCount := 1, nextId := 6 } =
      (Except.ok (), { slot := some 5, spawnCount := 1, nextId := 6 }) :=
  c7_start_noop_when_running true
    { slot := some 5, spawnCount := 1, nextId := 6 } 5 rfl

/-- Claim C9: when a handle is stored and the kill fails, stop still clears
    the slot (the handle is taken out before the kill is attempted), returns
    the kill error, and afterwards the supervisor reports not running. -/
theorem c9_stop_clears_handle_even_on_error (st : Sidecar.SupState) (h : Nat)
    (hs : st.slot = some h) :
    (Sidecar.stop_backend_internal false st).2.slot = none ∧
    (Sidecar.stop_backend_internal false st).1 =
      Except.error "Failed to kill sidecar" ∧
    Sidecar.is_running (Sidecar.stop_backend_internal false st).2 = false := by
  simp [Sidecar.stop_backend_internal, Sidecar.is_running, hs]

/-- Claim C9 witness: a failing stop at a concrete state with handle 3. -/
theorem c9_stop_clears_handle_even_on_error_witness :
    (Sidecar.stop_backend_internal false
        { slot := some 3, spawnCount := 1, nextId := 4 }).2.slot = none ∧
    (Sidecar.stop_backend_internal false
        { slot := some 3, spawnCount := 1, nextId := 4 }).1 =
      Except.error "Failed to kill sidecar" ∧
    Sidecar.is_running (Sidecar.stop_backend_internal false
        { slot := some 3, spawnCount := 1, nextId := 4 }).2 = false :=
  c9_stop_clears_handle_even_on_error
    { slot := some 3, spawnCount := 1, nextId := 4 } 3 rfl

/-- Claim C10: a save on a visible, non-minimized window that reports
    maximized writes nothing at all when the state file is missing or fails
    to parse: the file state is left exactly as it was, so no record is
    created and the maximized fact is not persisted. -/
theorem c10_save_maximized_no_prior_record_writes_nothing
    (q : WindowStateStore.SaveQueries) (pos : Int × Int) (size : Nat × Nat)
    (hmin : q.is_minimized = some false) (hvis : q.is_visible = some true)
    (hpos : q.outer_position = some pos) (hsize : q.outer_size = some size)
    (hmax : q.is_maximized = some true)
    (fs : WindowStateStore.FileState)
    (hfs : fs = WindowStateStore.FileState.missing ∨
           fs = WindowStateStore.FileState.malformed) :
    WindowStateStore.save_window_state q fs = fs := by
  rcases hfs with h | h <;> subst h <;>
    simp [WindowStateStore.save_window_state, hmin, hvis, hpos, hsize, hmax]

/-- Claim C10 witness: the maximized save leaves a missing file missing. -/
theorem c10_save_maximized_no_prior_record_writes_nothing_witness :
    WindowStateStore.save_window_state
        { is_minimized := some false, is_visible := some true,
          outer_position := some (0, 0), outer_size := some (1920, 1080),
          is_maximized := some true }
        WindowStateStore.FileState.missing =
      WindowStateStore.FileState.missing :=
  c10_save_maximized_no_prior_record_writes_nothing
    { is_minimized := some false, is_visible := some true,
      outer_position := some (0, 0), outer_size := some (1920, 1080),
      is_maximized := some true }
    (0, 0) (1920, 1080) rfl rfl rfl rfl rfl
    WindowStateStore.FileState.missing (Or.inl rfl)

/-- Claim C2: a save on a visible, non-minimized window that reports
    maximized, when a prior record exists and parses, writes back exactly
    the prior record with only its maximized flag set to true: x, y, width
    and height of the prior record are kept and the maximized window
    geometry read from the window is never written. -/
theorem c2_save_maximized_preserves_geometry
    (q : WindowStateStore.SaveQueries) (pos : Int × Int) (size : Nat × Nat)
    (prior : WindowStateStore.WindowState)
    (hmin : q.is_minimized = some false) (hvis : q.is_visible = some true)
    (hpos : q.outer_position = some pos) (hsize : q.outer_size = some size)
    (hmax : q.is_maximized = some true) :
    WindowStateStore.save_window_state q (WindowStateStore.FileState.record prior) =
      WindowStateStore.FileState.record
        { x := prior.x, y := prior.y, width := prior.width,
          height := prior.height, maximized := true } := by
  simp [WindowStateStore.save_window_state, hmin, hvis, hpos, hsize, hmax]

/-- Claim C2 witness: a maximized save over the prior record 10, 20,
    800 x 600 keeps that geometry and only flips the maximized flag, even
    though the window itself reports position (0, 0) and size 1920 x 1080. -/
theorem c2_save_maximized_preserves_geometry_witness :
    WindowStateStore.save_window_state
        { is_minimized := some false, is_visible := some true,
          outer_position := some (0, 0), outer_size := some (1920, 1080),
          is_maximized := some true }
        (WindowStateStore.FileState.record
          { x := 10, y := 20, width := 800, height := 600, maximized := false }) =
      WindowStateStore.FileState.record
        { x := 10, y := 20, width := 800, height := 600, maximized := true } :=
  c2_save_maximized_preserves_geometry
    { is_minimized := some false, is_visible := some true,
      outer_position := some (0, 0), outer_size := some (1920, 1080),
      is_maximized := some true }
    (0, 0) (1920, 1080)
    { x := 10, y := 20, width := 800, height := 600, maximized := false }
    rfl rfl rfl rfl rfl

/-- Claim C6: restore performs a window mutation exactly when the file
    state is a parsed record with width at least 400 and height at least
    300; a missing file, a malformed file, or a record below the minimum
    size leaves the window untouched. The function is total, so no input
    can make it crash. -/
theorem c6_restore_mutates_iff_valid_record (fs : WindowStateStore.FileState) :
    WindowStateStore.restore_window_state fs ≠ [] ↔
      ∃ s, fs = WindowStateStore.FileState.record s ∧
        400 ≤ s.width ∧ 300 ≤ s.height := by
  cases fs with
  | missing => simp [WindowStateStore.restore_window_state]
  | malformed => simp [WindowStateStore.restore_window_state]
  | record s =>
      by_cases hv : s.width < 400 ∨ s.height < 300
      · simp only [WindowStateStore.restore_window_state, if_pos hv,
          ne_eq, not_true_eq_false, false_iff, not_exists, not_and,
          WindowStateStore.FileState.record.injEq]
        intro s2 hs2
        subst hs2
        omega
      · by_cases hm : s.maximized <;>
          simp only [WindowStateStore.restore_window_state, if_neg hv, hm,
            if_true, if_false, Bool.false_eq_true, ne_eq,
            WindowStateStore.FileState.record.injEq] <;>
          constructor <;> intro h
        · exact ⟨s, rfl, by omega⟩
        · simp
        · exact ⟨s, rfl, by omega⟩
        · simp

/-- Claim C8: stop with nothing stored is an Ok no-op; with a handle
    stored it succeeds exactly when the kill succeeds; after a successful
    stop no handle is stored, and a subsequent successful start does not
    take the already-running early return: it spawns one new process and
    stores its handle. -/
theorem c8_stop_semantics :
    (∀ (killOk : Bool) (st : Sidecar.SupState), st.slot = none →
        Sidecar.stop_backend_internal killOk st = (Except.ok (), st)) ∧
    (∀ (killOk : Bool) (st : Sidecar.SupState) (h : Nat), st.slot = some h →
        ((Sidecar.stop_backend_internal killOk st).1 = Except.ok () ↔
          killOk = true)) ∧
    (∀ (st : Sidecar.SupState) (h : Nat), st.slot = some h →
        (Sidecar.stop_backend_internal true st).2.slot = none ∧
        (Sidecar.start_backend_internal true
            (Sidecar.stop_backend_internal true st).2).2.spawnCount =
          st.spawnCount + 1 ∧
        Sidecar.is_running (Sidecar.start_backend_internal true
            (Sidecar.stop_backend_internal true st).2).2 = true) := by
  refine ⟨?_, ?_, ?_⟩
  · intro killOk st hs
    simp [Sidecar.stop_backend_internal, hs]
  · intro killOk st h hs
    cases killOk <;> simp [Sidecar.stop_backend_internal, hs]
  · intro st h hs
    simp [Sidecar.stop_backend_internal, Sidecar.start_backend_internal,
      Sidecar.is_running, hs]

/-- Claim C8 witness: stop then start at the concrete state with handle 7
    stored: stop succeeds and clears the slot, the failing-kill stop is not
    Ok, and the subsequent start spawns exactly one more process. -/
theorem c8_stop_semantics_witness :
    (Sidecar.stop_backend_internal true
        { slot := none, spawnCount := 0, nextId := 1 } =
      (Except.ok (), { slot := none, spawnCount := 0, nextId := 1 })) ∧
    ((Sidecar.stop_backend_internal false
        { slot := some 7, spawnCount := 2, nextId := 8 }).1 = Except.ok () ↔
      false = true) ∧
    (Sidecar.stop_backend_internal true
        { slot := some 7, spawnCount := 2, nextId := 8 }).2.slot = none ∧
    (Sidecar.start_backend_internal true
        (Sidecar.stop_backend_internal true
          { slot := some 7, spawnCount := 2, nextId := 8 }).2).2.spawnCount = 3 ∧
    Sidecar.is_running (Sidecar.start_backend_internal true
        (Sidecar.stop_backend_internal true
          { slot := some 7, spawnCount := 2, nextId := 8 }).2).2 = true :=
  ⟨c8_stop_semantics.1 true { slot := none, spawnCount := 0, nextId := 1 } rfl,
   c8_stop_semantics.2.1 false
     { slot := some 7, spawnCount := 2, nextId := 8 } 7 rfl,
   c8_stop_semantics.2.2 { slot := some 7, spawnCount := 2, nextId := 8 } 7 rfl⟩

/-- When every health poll fails, a poll loop with budget n performs
    exactly n polls and n sleeps, never restores, shows or focuses, and
    falls through to the timeout log, from any starting attempt index. -/
theorem pollLoop_all_fail (we : Bool) (probe : Nat → Bool)
    (h : ∀ i, probe i = false) (n : Nat) :
    ∀ i, Startup.pollLoop we probe i n =
      { polls := n, sleeps := n, restored := false, shown := false,
        focused := false, timedOut := true } := by
  induction n with
  | zero => intro i; rfl
  | succ n ih =>
      intro i
      simp only [Startup.pollLoop, h i, Bool.false_eq_true, if_false]
      rw [ih (i + 1)]

/-- When the first k polls fail and poll k succeeds within the budget, the
    loop performs exactly k + 1 polls and k sleeps and then restores, shows
    and focuses (when the window exists), from any starting index. -/
theorem pollLoop_first_success (we : Bool) (probe : Nat → Bool) :
    ∀ (k n i : Nat), k < n → (∀ j, j < k → probe (i + j) = false) →
      probe (i + k) = true →
      Startup.pollLoop we probe i n =
        { polls := k + 1, sleeps := k, restored := we, shown := we,
          focused := we, timedOut := false } := by
  intro k
  induction k with
  | zero =>
      intro n i hk hfail hsucc
      obtain ⟨m, rfl⟩ : ∃ m, n = m + 1 := ⟨n - 1, by omega⟩
      have h0 : probe i = true := by simpa using hsucc
      simp [Startup.pollLoop, h0]
  | succ k ih =>
      intro n i hk hfail hsucc
      obtain ⟨m, rfl⟩ : ∃ m, n = m + 1 := ⟨n - 1, by omega⟩
      have h0 : probe i = false := by simpa using hfail 0 (Nat.succ_pos k)
      have hm : k < m := by omega
      have hfail2 : ∀ j, j < k → probe (i + 1 + j) = false := by
        intro j hj
        have h1 := hfail (j + 1) (by omega)
        have h2 : i + (j + 1) = i + 1 + j := by omega
        rwa [h2] at h1
      have hsucc2 : probe (i + 1 + k) = true := by
        have h2 : i + (k + 1) = i + 1 + k := by omega
        rwa [h2] at hsucc
      have hrec := ih m (i + 1) hm hfail2 hsucc2
      simp only [Startup.pollLoop, h0, Bool.false_eq_true, if_false]
      rw [hrec]

/-- Claim C3: if the health probe fails on every attempt, the startup
    sequencer performs exactly 30 poll attempts, sleeping 500 ms between
    them, and halts without restoring, showing or focusing the window; and
    when attempt k is the first to succeed within the budget, the sequencer
    polls exactly k + 1 times, restores the persisted geometry, reveals the
    window, and polls no further. -/
theorem c3_poll_loop_bounds :
    (∀ (windowExists : Bool) (probe : Nat → Bool), (∀ i, probe i = false) →
        Startup.startupSequence windowExists probe =
          { polls := 30, sleeps := 30, restored := false, shown := false,
            focused := false, timedOut := true }) ∧
    (∀ (probe : Nat → Bool) (k : Nat), k < 30 →
        (∀ j, j < k → probe j = false) → probe k = true →
        Startup.startupSequence true probe =
          { polls := k + 1, sleeps := k, restored := true, shown := true,
            focused := true, timedOut := false }) := by
  constructor
  · intro we probe h
    exact pollLoop_all_fail we probe h 30 0
  · intro probe k hk hfail hsucc
    have hfail0 : ∀ j, j < k → probe (0 + j) = false := by
      intro j hj
      simpa using hfail j hj
    have hsucc0 : probe (0 + k) = true := by simpa using hsucc
    exact pollLoop_first_success true probe k 30 0 hk hfail0 hsucc0

/-- Claim C3 witness: with an always-failing probe the sequencer polls 30
    times and never shows; with a probe that first succeeds on attempt 2 it
    polls exactly 3 times, restores and reveals. -/
theorem c3_poll_loop_bounds_witness :
    Startup.startupSequence false (fun _ => false) =
      { polls := 30, sleeps := 30, restored := false, shown := false,
        focused := false, timedOut := true } ∧
    Startup.startupSequence true (fun i => decide (2 ≤ i)) =
      { polls := 3, sleeps := 2, restored := true, shown := true,
        focused := true, timedOut := false } :=
  ⟨c3_poll_loop_bounds.1 false (fun _ => false) (fun _ => rfl),
   c3_poll_loop_bounds.2 (fun i => decide (2 ≤ i)) 2 (by decide)
     (fun j hj => by simp only [decide_eq_false_iff_not]; omega)
     (by decide)⟩
